import Mathlib

/-!
# Verification of the gdeltPyR date-resolution and fetch pipeline

Shallow embedding of the two source modules `gdelt/dateFuncs.py` and
`gdelt/base.py`.  Dates and times are modelled structurally; the
`strftime('%Y%m%d%H%M%S')` rendering is modelled character-for-character
(zero-padded decimal fields), Python string slicing `x[:k]` is modelled by
taking the first `k` characters, and `dateutil.parser.parse` applied to a
canonical 14-digit timestamp string is modelled by reading the six digit
groups back (this is exactly dateutil's documented handling of a 14-digit
numeric token: `YYYYMMDDHHMMSS`).
-/

namespace Gdelt

/-- A calendar date, as carried by a Python `datetime.datetime`'s date part. -/
structure Date where
  year : Nat
  month : Nat
  day : Nat
deriving DecidableEq, Repr

/-- A time of day, as carried by a Python `datetime.datetime`'s time part. -/
structure Time where
  hour : Nat
  minute : Nat
  second : Nat
deriving DecidableEq, Repr

/-- A `datetime.datetime` value (microseconds are never rendered and omitted). -/
structure DateTime where
  date : Date
  time : Time
deriving DecidableEq, Repr

/-- Two-digit zero-padded decimal rendering, as produced by `strftime`
fields `%m %d %H %M %S` (and pairs of digits of `%Y`). -/
def pad2 (n : Nat) : String :=
  if n < 10 then "0" ++ toString n else toString n

/-- `strftime('%Y%m%d')` for the date part: the four-digit zero-padded year
(rendered as two two-digit halves) followed by two-digit month and day. -/
def renderDate (d : Date) : String :=
  pad2 (d.year / 100) ++ pad2 (d.year % 100) ++ pad2 d.month ++ pad2 d.day

/-- `strftime('%Y%m%d%H%M%S')` applied to a datetime, as in
`dateFuncs.gdeltRangeString`. -/
def renderTS (dt : DateTime) : String :=
  renderDate dt.date ++ pad2 dt.time.hour ++ pad2 dt.time.minute ++ pad2 dt.time.second

/-- Value of a string of decimal digits, as computed by Python `int` on the
digit groups that `dateutil` slices out of a numeric token.  (`Char.toNat c - 48`
is the digit value of `c`.) -/
def strValL (cs : List Char) : Nat :=
  cs.foldl (fun a c => a * 10 + (c.toNat - 48)) 0

/-- dateutil's parse of a canonical 14-digit `YYYYMMDDHHMMSS` token: the six
digit groups `s[:4] s[4:6] s[6:8] s[8:10] s[10:12] s[12:14]` become year,
month, day, hour, minute, second (dateFuncs lines 205-213 call
`parse(x)` on such strings). -/
def parse14 (s : String) : DateTime :=
  let cs := s.toList
  ⟨⟨strValL ((cs.drop 0).take 4), strValL ((cs.drop 4).take 2),
    strValL ((cs.drop 6).take 2)⟩,
   ⟨strValL ((cs.drop 8).take 2), strValL ((cs.drop 10).take 2),
    strValL ((cs.drop 12).take 2)⟩⟩

/-- Chronological key of a datetime: Python compares `datetime` values
lexicographically by (year, month, day, hour, minute, second); on in-range
fields (all but the year below 100) this equals comparison of this key. -/
def dtKey (dt : DateTime) : Nat :=
  ((((dt.date.year * 100 + dt.date.month) * 100 + dt.date.day) * 100 +
    dt.time.hour) * 100 + dt.time.minute) * 100 + dt.time.second

/-- Python string slice `x[:k]` (strings are sequences of characters). -/
def strTake (s : String) (k : Nat) : String :=
  (s.toList.take k).asString

/-!
## dateFuncs.gdeltRangeString

The `times` list is built exactly as in the source (dateFuncs lines 100-109):
`minutes = map(str, range(0, 60, 15))`, `hours = map(str, range(0, 24))`,
then each hour below 10 is left-padded with `"0"`, the minute `"0"` is
replaced by `"00"`, and the slot is `'{0}:{1}'.format(l, k)`.
-/

/-- `list(map(str, range(0, 60, 15)))` = `["0", "15", "30", "45"]`. -/
def minutesList : List String := (List.range 4).map (fun k => toString (15 * k))

/-- `list(map(str, range(0, 24)))`. -/
def hoursList : List String := (List.range 24).map (fun l => toString l)

/-- The 96 `"HH:MM"` slot labels of dateFuncs lines 100-109. -/
def times : List String :=
  hoursList.flatMap (fun l =>
    let l' := if strValL l.toList < 10 then "0" ++ l else l
    minutesList.map (fun k =>
      let k' := if k = "0" then "00" else k
      l' ++ ":" ++ k'))

/-- Hour field of a `"HH:MM"` slot label. -/
def hmHour (x : String) : Nat := strValL (x.toList.take 2)

/-- Minute field of a `"HH:MM"` slot label. -/
def hmMin (x : String) : Nat := strValL ((x.toList.drop 3).take 2)

/-- `np.datetime64(parse(str(element) + " " + x)).tolist().strftime('%Y%m%d%H%M%S')`
for a midnight datetime `element` of date `d` and a slot label `x`:
dateutil re-reads the trailing `"HH:MM"` token, so the result is the day `d`
at that slot, rendered as 14 digits. -/
def timestampAt (d : Date) (x : String) : String :=
  renderTS ⟨d, ⟨hmHour x, hmMin x, 0⟩⟩

/-- The argument of `gdeltRangeString`: `element.tolist()` of the numpy value
built by `dateRanger` is either one `datetime` (0-d array) or a Python list of
them (1-d array). -/
inductive DateInput where
  | single (dt : DateTime)
  | many (dts : List DateTime)
deriving DecidableEq, Repr

/-- The result of `gdeltRangeString`: either one timestamp string or a list
of them (`base.Search` later branches on `isinstance(self.datesString, str)`). -/
inductive Converted where
  | single (s : String)
  | many (ss : List String)
deriving DecidableEq, Repr

/-- Version-1 era truncation of one timestamp string
(dateFuncs lines 204-214 / 218-225): re-parse the string, then
`strftime('%Y%m%d%H%M%S')` sliced to 8 digits for dates on or after
2013-04-01, to 4 digits for dates before 2006-01-01, and to 6 digits
otherwise. -/
def truncStr (x : String) : String :=
  let p := parse14 x
  if dtKey ⟨⟨2013, 4, 1⟩, ⟨0, 0, 0⟩⟩ ≤ dtKey p then strTake (renderTS p) 8
  else if dtKey p < dtKey ⟨⟨2006, 1, 1⟩, ⟨0, 0, 0⟩⟩ then strTake (renderTS p) 4
  else strTake (renderTS p) 6

/-- `dateFuncs.gdeltRangeString(element, coverage, version)`, with the wall
clock `datetime.datetime.now()` passed explicitly as `now`.

* `multiple = 15 * (now.minute // 15)` and `conditioner = now.minute // 15 + 1`
  (lines 113-116);
* single datetime equal to today: coverage (and version ≠ 1) takes
  `times[:hour * 4 + conditioner]` (lines 121-129), otherwise
  `now().replace(minute=multiple, second=0)` (lines 130-132);
* single datetime on another day: coverage takes all 96 slots
  (lines 134-142), otherwise `element.replace(minute=multiple, second=0)` —
  the element's own hour is kept (lines 143-146);
* list: each day maps to `combine(x, time.min) + 23:45` (lines 159-174),
  overwritten under coverage (and version ≠ 1) by the concatenation of all
  96 slots per day (lines 179-189); the ≥ 960-file advisory warning
  (lines 190-196) is non-fatal and not modelled;
* version 1 finally truncates every string by era and de-duplicates lists
  via `list(set(...))` (lines 201-226), modelled by `List.dedup`. -/
def gdeltRangeString (now : DateTime) (element : DateInput) (coverage : Bool)
    (version : Nat) : Converted :=
  let multiple := 15 * (now.time.minute / 15)
  let conditioner := now.time.minute / 15 + 1
  let converted : Converted :=
    match element with
    | .single dt =>
      if dt.date = now.date then
        if coverage ∧ version ≠ 1 then
          .many ((times.take (now.time.hour * 4 + conditioner)).map (timestampAt dt.date))
        else
          .single (renderTS ⟨now.date, ⟨now.time.hour, multiple, 0⟩⟩)
      else
        if coverage ∧ version ≠ 1 then
          .many (times.map (timestampAt dt.date))
        else
          .single (renderTS ⟨dt.date, ⟨dt.time.hour, multiple, 0⟩⟩)
    | .many dts =>
      if coverage ∧ version ≠ 1 then
        .many (dts.flatMap (fun i => times.map (timestampAt i.date)))
      else
        .many (dts.map (fun x => renderTS ⟨x.date, ⟨23, 45, 0⟩⟩))
  if version = 1 then
    match converted with
    | .many ss => .many ((ss.map truncStr).dedup)
    | .single s => .single (truncStr s)
  else converted

/-!
## dateFuncs.parse_date and dateRanger

`parse_date` (lines 10-17) wraps `dateutil.parser.parse` in a
`try`/`except` that RETURNS an error-message string instead of raising, and
`dateRanger`'s string branch (lines 54-58) wraps the result in
`np.where(len(originalArray) == 0, "crazy", parse_date(originalArray))`,
which selects the sentinel string `"crazy"` for the empty input.  The
free-form parser itself is an external collaborator and is passed in as a
function `parse : String → Option DateTime` (`none` = dateutil raised). -/

/-- A Python value as returned by `parse_date`/`dateRanger`'s string branch:
either a `datetime` or a plain string (sentinel or error message). -/
inductive PyVal where
  | dt (d : DateTime)
  | str (s : String)
deriving DecidableEq, Repr

/-- The message string returned (not raised) by `parse_date`'s `except` arm. -/
def errMsgIncorrectDate : String :=
  "You entered an incorrect date.  Check your date format."

/-- `dateFuncs.parse_date` (lines 10-17): on success
`np.where(isinstance(parse(var), datetime.datetime), parse(var), "Error")`
yields the parsed datetime; on any exception the error-message string is
returned as a value. -/
def parse_date (parse : String → Option DateTime) (var : String) : PyVal :=
  match parse var with
  | some d => .dt d
  | none => .str errMsgIncorrectDate

/-- `dateFuncs.dateRanger`'s single-string branch (lines 54-58):
`np.where(len(originalArray) == 0, "crazy", parse_date(originalArray))`. -/
def dateRangerStr (parse : String → Option DateTime) (s : String) : PyVal :=
  if s.length = 0 then .str "crazy" else parse_date parse s

/-- `np.arange(a, b, dtype='datetime64[D]')` — numpy's `datetime64[D]` is an
integer count of days, and `arange` yields `a, a+1, …, b-1` (empty when
`b ≤ a`).  Days are therefore modelled as integers. -/
def npArangeD (a b : Int) : List Int :=
  (List.range (b - a).toNat).map (fun (k : Nat) => a + (k : Int))

/-- `dateFuncs.dateRanger`'s two-element branch (lines 68-81): the day range
`np.arange(converted[0], converted[1], dtype='datetime64[D]')` followed by
`np.append(dates, adder)` of the end day, "numpy range is not endpoint
inclusive". -/
def dateRanger2 (a b : Int) : List Int :=
  npArangeD a b ++ [b]

/-!
## base.Search

`Search` (base.py lines 142-330).  Errors raised by the pipeline are
modelled as constructors of one error type:

* `unsupportedTable` — the `BaseException('GDELT 1.0 does not have the
  "mentions table. …')` of lines 201-204;
* `incorrectTable` — the `Exception('You entered an incorrect table type for
  GDELT 1.0.')` of lines 227-229;
* `nameError` — the `NameError` produced by the bare, undefined name `p` on
  line 290;
* `emptyResult` — the `ValueError("This GDELT query returned no data. …")`
  of lines 313-316;
* `fetchError` — a network/parse failure raised inside `mp_worker`
  (module `gdelt.parallel`, an external collaborator for this model). -/

/-- The distinct error conditions `Search` can raise. -/
inductive SearchErr where
  | unsupportedTable
  | incorrectTable
  | nameError
  | emptyResult
  | fetchError
deriving DecidableEq, Repr

/-- A pandas DataFrame, reduced to what the pipeline touches: its column
labels and its rows of cell values. -/
structure DataFrame where
  cols : List String
  rows : List (List String)
deriving DecidableEq, Repr

/-- `self.download_list`: one URL when `self.datesString` is a single string,
a list of URLs otherwise (mirroring `isinstance(self.datesString, str)`). -/
inductive Downloads where
  | single (u : String)
  | many (us : List String)
deriving DecidableEq, Repr

/-- `pd.concat(downloaded_dfs)`: rows of all batches, in order, keeping each
batch's own row labels (indices). -/
def pdConcat (dfs : List DataFrame) : DataFrame :=
  ⟨(dfs.headD ⟨[], []⟩).cols, dfs.flatMap DataFrame.rows⟩

/-- `results.reset_index(drop=True, inplace=True)`: a fresh 0-based row
index; with rows stored positionally this is the identity on the data. -/
def resetIndex (t : DataFrame) : DataFrame := t

/-- The download section of `Search` (base.py lines 280-304), with the
per-URL fetch `mp_worker`/`eventWork` passed in as `fetchOne`:

* a single-string `datesString` is fetched inline, no pool (lines 280-286);
* otherwise, for `table == 'events'` the bare undefined name `p` on line 290
  is evaluated first and raises `NameError` before any pool is created;
* for other tables the URLs are dispatched across a `Pool`, concatenated
  with `pd.concat` and re-indexed (lines 294-304; `imap_unordered` returns
  batches in completion order, modelled here in submission order). -/
def searchDownload (table : String) (dls : Downloads)
    (fetchOne : String → DataFrame) : Except SearchErr DataFrame :=
  match dls with
  | .single u => .ok (fetchOne u)
  | .many us =>
    if table = "events" then .error .nameError
    else .ok (resetIndex (pdConcat (us.map fetchOne)))

/-- The version-1 download-list construction of `Search` (base.py
lines 199-229): the `mentions` rejection comes first, then `gkg` uses the
coverage ranger, `events` (or the empty table name) picks the ranger by the
coverage flag, and any other table name raises.  `urlFor` stands for the
`urlBuilder` partials (module `gdelt.vectorizingFuncs`, external). -/
def v1DownloadList (table : String) (coverage : Bool)
    (datesCov datesNoCov : Converted) (urlFor : String → Converted → Downloads) :
    Except SearchErr Downloads :=
  if table = "mentions" then .error .unsupportedTable
  else if table = "gkg" then .ok (urlFor "gkg" datesCov)
  else if table = "events" ∨ table = "" then
    .ok (urlFor "events" (if coverage then datesCov else datesNoCov))
  else .error .incorrectTable

/-- The version-1 pipeline through the download section: build the download
list (validation first), then fetch.  An error from the first stage
short-circuits: no URL is ever fetched. -/
def v1Search (table : String) (coverage : Bool) (datesCov datesNoCov : Converted)
    (urlFor : String → Converted → Downloads) (fetchOne : String → DataFrame) :
    Except SearchErr DataFrame :=
  (v1DownloadList table coverage datesCov datesNoCov urlFor).bind
    (fun dls => searchDownload table dls fetchOne)

/-- The post-assembly section of `Search` (base.py lines 306-325):

* for version-1 `gkg` the first downloaded row supplies the header and is
  dropped (lines 306-308); otherwise the fixed header list is assigned
  (lines 310-311);
* a zero-row table raises the empty-result `ValueError` (lines 313-316);
* for `events` the `CAMEOCodeDescription` column, derived from the
  `EventCode` cell through the code→description lookup `codeCams`, is
  inserted at column position 27 (lines 319-323). -/
def nameColumns (table : String) (version : Nat) (df : DataFrame)
    (columns : List String) : DataFrame :=
  if table = "gkg" ∧ version = 1 then ⟨df.rows.headD [], df.rows.drop 1⟩
  else ⟨columns, df.rows⟩

/-- `results.insert(27, 'CAMEOCodeDescription', value=cameoDescripts.values)`
(base.py lines 319-323): the description column, derived from each row's
`EventCode` cell through `codeCams`, is inserted at column position 27. -/
def insertCameo (df : DataFrame) (codeCams : String → String)
    (eventCodeIdx : Nat) : DataFrame :=
  ⟨df.cols.take 27 ++ ["CAMEOCodeDescription"] ++ df.cols.drop 27,
   df.rows.map (fun r =>
     r.take 27 ++ [codeCams (r.getD eventCodeIdx "")] ++ r.drop 27)⟩

def searchPost (table : String) (version : Nat) (df : DataFrame)
    (columns : List String) (codeCams : String → String) (eventCodeIdx : Nat) :
    Except SearchErr DataFrame :=
  if (nameColumns table version df columns).rows.length = 0 then
    .error .emptyResult
  else if table = "events" then
    .ok (insertCameo (nameColumns table version df columns) codeCams eventCodeIdx)
  else .ok (nameColumns table version df columns)

/-!
## Helper lemmas
-/

/-- `String` append concatenates the underlying character lists. -/
theorem toList_append (a b : String) : (a ++ b).toList = a.toList ++ b.toList := by
  cases a
  cases b
  rfl

/-- A two-digit pad always yields two characters. -/
theorem pad2_toList_length : ∀ n < 100, (pad2 n).toList.length = 2 := by decide

/-- Reading a two-digit pad back as a number recovers the number. -/
theorem pad2_strValL : ∀ n < 100, strValL (pad2 n).toList = n := by decide

/-- Folding the digit-reading step over a concatenation shifts the first
part by a power of ten. -/
theorem strValL_append (a b : List Char) :
    strValL (a ++ b) = strValL a * 10 ^ b.length + strValL b := by
  have key : ∀ (cs : List Char) (n : Nat),
      cs.foldl (fun a c => a * 10 + (c.toNat - 48)) n =
        n * 10 ^ cs.length + cs.foldl (fun a c => a * 10 + (c.toNat - 48)) 0 := by
    intro cs
    induction cs with
    | nil => intro n; simp
    | cons c cs ih =>
      intro n
      simp only [List.foldl_cons, List.length_cons]
      rw [ih (n * 10 + (c.toNat - 48)), ih (0 * 10 + (c.toNat - 48))]
      ring
  unfold strValL
  rw [List.foldl_append, key]

/-- The hour/minute fields read back from the 96 slot labels are exactly
`(k / 4, 15 * (k % 4))` for slot number `k`. -/
theorem times_hm :
    times.map (fun x => (hmHour x, hmMin x)) =
      (List.range 96).map (fun k => (k / 4, 15 * (k % 4))) := by decide

/-- The per-day 15-minute expansion, in closed form: slot `k` is the day at
hour `k / 4`, minute `15 * (k % 4)`. -/
theorem times_map_timestampAt (d : Date) :
    times.map (timestampAt d) =
      (List.range 96).map (fun k => renderTS ⟨d, ⟨k / 4, 15 * (k % 4), 0⟩⟩) := by
  calc times.map (timestampAt d)
      = (times.map (fun x => (hmHour x, hmMin x))).map
          (fun p => renderTS ⟨d, ⟨p.1, p.2, 0⟩⟩) := by
        rw [List.map_map]; rfl
    _ = ((List.range 96).map (fun k => (k / 4, 15 * (k % 4)))).map
          (fun p => renderTS ⟨d, ⟨p.1, p.2, 0⟩⟩) := by
        rw [times_hm]
    _ = (List.range 96).map (fun k => renderTS ⟨d, ⟨k / 4, 15 * (k % 4), 0⟩⟩) := by
        rw [List.map_map]; rfl

/-- The truncated expansion of the current day, in the same closed form. -/
theorem times_take_map_timestampAt (d : Date) (n : Nat) :
    (times.take n).map (timestampAt d) =
      ((List.range 96).take n).map (fun k => renderTS ⟨d, ⟨k / 4, 15 * (k % 4), 0⟩⟩) := by
  rw [List.map_take, times_map_timestampAt, ← List.map_take]

/-!
## Claims
-/

/-- Claim C10: for version 1 the coverage flag has no effect on the resolved
timestamp set — every 15-minute-expansion branch of `gdeltRangeString` is
guarded by `coverage and int(version) != 1`, so under version 1 both flag
values take the same single-timestamp path (and the same era truncation and
de-duplication afterwards). -/
theorem c10_v1_coverage_no_effect (now : DateTime) (element : DateInput)
    (c₁ c₂ : Bool) :
    gdeltRangeString now element c₁ 1 = gdeltRangeString now element c₂ 1 := by
  cases element <;> simp [gdeltRangeString]

/-- Claim C6: under version 1, requesting the `mentions` table makes `Search`
raise the unsupported-table error while building the download list — before
any file URL is produced or fetched — for every date spec and coverage
flag. -/
theorem c6_v1_mentions_rejected (coverage : Bool) (datesCov datesNoCov : Converted)
    (urlFor : String → Converted → Downloads) (fetchOne : String → DataFrame) :
    v1DownloadList "mentions" coverage datesCov datesNoCov urlFor =
      .error .unsupportedTable ∧
    v1Search "mentions" coverage datesCov datesNoCov urlFor fetchOne =
      .error .unsupportedTable := by
  constructor <;> rfl

/-- Claim C5 (code bug): a single-file query is fetched inline as claimed,
but any multi-file `events` query evaluates the bare, undefined name `p`
(base.py line 290) and dies with a `NameError` before the worker pool is
even created — contradicting both the claim and the class docstring's own
example (a coverage query for table `events`). -/
theorem c5_dispatch_name_error (fetchOne : String → DataFrame) :
    (∀ u, searchDownload "events" (.single u) fetchOne = .ok (fetchOne u)) ∧
    (∀ us, searchDownload "events" (.many us) fetchOne = .error .nameError) ∧
    (∀ us, searchDownload "gkg" (.many us) fetchOne =
      .ok (resetIndex (pdConcat (us.map fetchOne)))) := by
  refine ⟨fun u => rfl, fun us => rfl, fun us => rfl⟩

/-- Claim C8 counterexample: the date normalizer does not raise on bad
input — the empty string yields the sentinel value `"crazy"` and an
unparseable date string yields the error-message string, both returned in
place of a DayList. -/
theorem c8_fallback_counterexample :
    dateRangerStr (fun _ => none) "" = PyVal.str "crazy" ∧
    dateRangerStr (fun _ => none) "2016-99-99" = PyVal.str errMsgIncorrectDate := by
  constructor <;> rfl

/-- Claim C8 amended: whenever the free-form parse fails, the normalizer
returns a plain string — `"crazy"` for the empty input (from
`np.where(len(originalArray) == 0, "crazy", …)`), the fixed error message
otherwise (from `parse_date`'s `except` arm) — rather than raising an
error. -/
theorem c8_amended_fallback_values (parse : String → Option DateTime)
    (s : String) (h : parse s = none) :
    dateRangerStr parse s =
      PyVal.str (if s.length = 0 then "crazy" else errMsgIncorrectDate) := by
  by_cases h0 : s.length = 0 <;> simp [dateRangerStr, parse_date, h, h0]

/-- Claim C8 amended, witness at a concrete unparseable input. -/
theorem c8_amended_witness :
    dateRangerStr (fun _ => none) "not a date" =
      PyVal.str (if ("not a date").length = 0 then "crazy" else errMsgIncorrectDate) :=
  c8_amended_fallback_values (fun _ => none) "not a date" rfl

/-- Claim C3: for a chronological two-element range the resolved day list is
inclusive of both endpoints — the exclusive `np.arange` plus the explicit
`np.append` of the end day — so it contains exactly the days `a ≤ d ≤ b`
and has length `(b - a) + 1`. -/
theorem c3_inclusive_day_range (a b : Int) (h : a ≤ b) :
    (dateRanger2 a b).length = (b - a).toNat + 1 ∧
    ∀ d : Int, d ∈ dateRanger2 a b ↔ a ≤ d ∧ d ≤ b := by
  have hb : b = a + ((b - a).toNat : Int) := by omega
  have hform : dateRanger2 a b =
      (List.range ((b - a).toNat + 1)).map (fun (k : Nat) => a + (k : Int)) := by
    rw [List.range_succ, List.map_append]
    unfold dateRanger2 npArangeD
    simp only [List.map_cons, List.map_nil]
    rw [← hb]
  constructor
  · rw [hform, List.length_map, List.length_range]
  · intro d
    rw [hform, List.mem_map]
    constructor
    · rintro ⟨k, hk, rfl⟩
      rw [List.mem_range] at hk
      omega
    · rintro ⟨h1, h2⟩
      exact ⟨(d - a).toNat, by rw [List.mem_range]; omega, by omega⟩

/-- Claim C3, witness on the concrete range of days 3 to 5. -/
theorem c3_witness :
    (dateRanger2 3 5).length = ((5 : Int) - 3).toNat + 1 ∧
    ∀ d : Int, d ∈ dateRanger2 3 5 ↔ 3 ≤ d ∧ d ≤ 5 :=
  c3_inclusive_day_range 3 5 (by decide)

/-- Claim C9: when the concatenated table has zero rows the pipeline raises
the empty-result error (a condition distinct from a fetch error), and it
never returns a zero-row table: every successful result is non-empty. -/
theorem c9_empty_result_error (table : String) (version : Nat) (df : DataFrame)
    (columns : List String) (codeCams : String → String) (eventCodeIdx : Nat) :
    (df.rows = [] →
      searchPost table version df columns codeCams eventCodeIdx = .error .emptyResult) ∧
    (∀ out, searchPost table version df columns codeCams eventCodeIdx = .ok out →
      out.rows ≠ []) ∧
    SearchErr.emptyResult ≠ SearchErr.fetchError := by
  refine ⟨fun h => ?_, fun out hout => ?_, by decide⟩
  · unfold searchPost nameColumns
    split <;> simp [h]
  · intro hempty
    unfold searchPost at hout
    split at hout
    · exact Except.noConfusion hout
    · split at hout
      · rename_i hlen _
        rw [Except.ok.injEq] at hout
        apply hlen
        have : out.rows.length = 0 := by rw [hempty]; rfl
        rw [← hout] at this
        simpa [insertCameo] using this
      · rename_i hlen _
        rw [Except.ok.injEq] at hout
        apply hlen
        rw [hout, hempty]
        rfl

/-- Claim C9, witness: a concrete empty events table raises the
empty-result error. -/
theorem c9_witness :
    searchPost "events" 2 ⟨["x"], []⟩ ["a", "b"] (fun _ => "") 26 =
      .error .emptyResult ∧ SearchErr.emptyResult ≠ SearchErr.fetchError :=
  ⟨(c9_empty_result_error "events" 2 ⟨["x"], []⟩ ["a", "b"] (fun _ => "") 26).1 rfl,
   (c9_empty_result_error "events" 2 ⟨["x"], []⟩ ["a", "b"] (fun _ => "") 26).2.2⟩

/-- The timestamps held by a `Converted` value, for stating membership. -/
def convList : Converted → List String
  | .single s => [s]
  | .many l => l

/-- Claim C2: under version 2 with coverage, a day that is not the current
calendar day expands to exactly 96 timestamps — slot `k` (0 ≤ k < 96)
being that day at hour `k / 4`, minute `15 * (k % 4)`, second 0, rendered
as `YYYYMMDDHHMMSS` — so they all lie within the day, are strictly
increasing and spaced 15 minutes apart, from 00:00:00 (k = 0) to 23:45:00
(k = 95); the same holds for every element of a day list. -/
theorem c2_v2_coverage_full_day (now dt : DateTime) (hne : dt.date ≠ now.date) :
    gdeltRangeString now (.single dt) true 2 =
      .many ((List.range 96).map (fun k =>
        renderTS ⟨dt.date, ⟨k / 4, 15 * (k % 4), 0⟩⟩)) ∧
    ∀ dts : List DateTime,
      gdeltRangeString now (.many dts) true 2 =
        .many (dts.flatMap (fun i => (List.range 96).map (fun k =>
          renderTS ⟨i.date, ⟨k / 4, 15 * (k % 4), 0⟩⟩))) := by
  constructor
  · simp [gdeltRangeString, hne, times_map_timestampAt]
  · intro dts
    simp [gdeltRangeString, times_map_timestampAt]

/-- Claim C2, witness on the concrete day 2016-10-19 seen from a later
day. -/
theorem c2_witness :
    gdeltRangeString ⟨⟨2016, 10, 25⟩, ⟨8, 0, 0⟩⟩
        (.single ⟨⟨2016, 10, 19⟩, ⟨0, 0, 0⟩⟩) true 2 =
      .many ((List.range 96).map (fun k =>
        renderTS ⟨⟨2016, 10, 19⟩, ⟨k / 4, 15 * (k % 4), 0⟩⟩)) :=
  (c2_v2_coverage_full_day ⟨⟨2016, 10, 25⟩, ⟨8, 0, 0⟩⟩
    ⟨⟨2016, 10, 19⟩, ⟨0, 0, 0⟩⟩ (by decide)).1

/-- Claim C7 counterexample: with `now` = 2016-10-20 10:07, the two-day
list [2016-10-19, 2016-10-20] under version 2 with coverage expands the
current day through 23:45:00 — 192 timestamps in total — although the
claim says the current day stops at the floor of now (10:00:00, which
would leave 96 + 41 = 137 timestamps with none later than
`20161020100000`). -/
theorem c7_today_in_list_counterexample :
    "20161020234500" ∈ convList (gdeltRangeString ⟨⟨2016, 10, 20⟩, ⟨10, 7, 0⟩⟩
      (.many [⟨⟨2016, 10, 19⟩, ⟨0, 0, 0⟩⟩, ⟨⟨2016, 10, 20⟩, ⟨0, 0, 0⟩⟩]) true 2) ∧
    (convList (gdeltRangeString ⟨⟨2016, 10, 20⟩, ⟨10, 7, 0⟩⟩
      (.many [⟨⟨2016, 10, 19⟩, ⟨0, 0, 0⟩⟩, ⟨⟨2016, 10, 20⟩, ⟨0, 0, 0⟩⟩])
      true 2)).length = 192 := by
  constructor
  · decide
  · rfl

/-- Claim C7 amended: under version 2 with coverage, the floor-of-now
truncation (`times[:hour * 4 + conditioner]`) applies only when the current
day is given as a single-day spec; every element of a multi-day list —
including the current day, which the list branch never tests for — expands
to all 96 slots through 23:45:00. -/
theorem c7_amended_today_truncation :
    (∀ now dt : DateTime, dt.date = now.date →
      gdeltRangeString now (.single dt) true 2 =
        .many (((List.range 96).take
            (now.time.hour * 4 + (now.time.minute / 15 + 1))).map
          (fun k => renderTS ⟨dt.date, ⟨k / 4, 15 * (k % 4), 0⟩⟩))) ∧
    (∀ (now : DateTime) (dts : List DateTime),
      gdeltRangeString now (.many dts) true 2 =
        .many (dts.flatMap (fun i => (List.range 96).map (fun k =>
          renderTS ⟨i.date, ⟨k / 4, 15 * (k % 4), 0⟩⟩)))) := by
  constructor
  · intro now dt h
    simp [gdeltRangeString, h]
    rw [times_map_timestampAt]
  · intro now dts
    simp [gdeltRangeString, times_map_timestampAt]

/-- Claim C7 amended, witness: the current day as a single-day spec at
now = 2016-10-20 10:07 stops at slot 10 * 4 + 0 (10:00:00). -/
theorem c7_amended_witness :
    gdeltRangeString ⟨⟨2016, 10, 20⟩, ⟨10, 7, 0⟩⟩
        (.single ⟨⟨2016, 10, 20⟩, ⟨0, 0, 0⟩⟩) true 2 =
      .many (((List.range 96).take (10 * 4 + (7 / 15 + 1))).map
        (fun k => renderTS ⟨⟨2016, 10, 20⟩, ⟨k / 4, 15 * (k % 4), 0⟩⟩)) :=
  c7_amended_today_truncation.1 ⟨⟨2016, 10, 20⟩, ⟨10, 7, 0⟩⟩
    ⟨⟨2016, 10, 20⟩, ⟨0, 0, 0⟩⟩ (by decide)

/-- Claim C1 counterexample: with `now` = 2016-10-25 14:37:22, the
single-day spec 2016-10-19 under version 2 without coverage resolves to
`"20161019003000"` (the element keeps its midnight hour and receives the
wall clock's floored minute, `element.replace(minute=multiple, second=0)`)
— not to the claimed end-of-day marker `"20161019234500"`. -/
theorem c1_single_day_counterexample :
    gdeltRangeString ⟨⟨2016, 10, 25⟩, ⟨14, 37, 22⟩⟩
        (.single ⟨⟨2016, 10, 19⟩, ⟨0, 0, 0⟩⟩) false 2 =
      Converted.single "20161019003000" ∧
    "20161019003000" ≠ "20161019234500" := by
  constructor
  · rfl
  · decide

/-- Claim C1 amended: under version 2 without coverage each day resolves to
exactly one timestamp, but the end-of-day marker 23:45:00 is used only for
days given inside a multi-day list; a single current day resolves to now
floored to 15 minutes, and a single non-current day keeps the element's own
hour (midnight for day-only specs) with the wall clock's floored minute —
a clock-dependent timestamp of the form YYYYMMDD00MM00, not 23:45:00.  The
single resolved timestamp is fetched inline as one file, and the events
result table gets `CAMEOCodeDescription` inserted at column position 27. -/
theorem c1_amended_v2_no_coverage :
    (∀ now dt : DateTime, dt.date = now.date →
      gdeltRangeString now (.single dt) false 2 =
        .single (renderTS ⟨now.date, ⟨now.time.hour, 15 * (now.time.minute / 15), 0⟩⟩)) ∧
    (∀ now dt : DateTime, dt.date ≠ now.date →
      gdeltRangeString now (.single dt) false 2 =
        .single (renderTS ⟨dt.date, ⟨dt.time.hour, 15 * (now.time.minute / 15), 0⟩⟩)) ∧
    (∀ (now : DateTime) (dts : List DateTime),
      gdeltRangeString now (.many dts) false 2 =
        .many (dts.map (fun x => renderTS ⟨x.date, ⟨23, 45, 0⟩⟩))) ∧
    (∀ (fetchOne : String → DataFrame) (u : String),
      searchDownload "events" (.single u) fetchOne = .ok (fetchOne u)) ∧
    (∀ (df : DataFrame) (columns : List String) (codeCams : String → String)
        (eventCodeIdx : Nat), 27 ≤ columns.length → df.rows ≠ [] →
      ∃ out, searchPost "events" 2 df columns codeCams eventCodeIdx = .ok out ∧
        out.cols[27]? = some "CAMEOCodeDescription") := by
  refine ⟨?_, ?_, ?_, fun fetchOne u => rfl, ?_⟩
  · intro now dt h
    simp [gdeltRangeString, h]
  · intro now dt h
    simp [gdeltRangeString, h]
  · intro now dts
    simp [gdeltRangeString]
  · intro df columns codeCams idx hlen hrows
    have hname : nameColumns "events" 2 df columns = ⟨columns, df.rows⟩ := by
      simp [nameColumns]
    have hlen0 : ¬((nameColumns "events" 2 df columns).rows.length = 0) := by
      rw [hname]
      simpa using hrows
    refine ⟨insertCameo (nameColumns "events" 2 df columns) codeCams idx, ?_, ?_⟩
    · simp [searchPost, hlen0]
    · rw [hname]
      have h27 : (columns.take 27).length = 27 := by
        rw [List.length_take]
        omega
      simp only [insertCameo]
      rw [List.append_assoc, List.getElem?_append_right h27.le, h27]
      simp

/-- Claim C1 amended, witness: a concrete non-current single day at a
concrete clock. -/
theorem c1_amended_witness :
    gdeltRangeString ⟨⟨2021, 5, 5⟩, ⟨9, 33, 11⟩⟩
        (.single ⟨⟨2021, 5, 1⟩, ⟨0, 0, 0⟩⟩) false 2 =
      .single (renderTS ⟨⟨2021, 5, 1⟩, ⟨0, 15 * (33 / 15), 0⟩⟩) :=
  c1_amended_v2_no_coverage.2.1 ⟨⟨2021, 5, 5⟩, ⟨9, 33, 11⟩⟩
    ⟨⟨2021, 5, 1⟩, ⟨0, 0, 0⟩⟩ (by decide)

/-- A character list of length two is an explicit pair. -/
theorem eq_pair_of_length_two {a : List Char} (h : a.length = 2) :
    ∃ c₁ c₂, a = [c₁, c₂] := by
  cases a with
  | nil => simp at h
  | cons x t =>
    cases t with
    | nil => simp at h
    | cons y t2 =>
      cases t2 with
      | nil => exact ⟨x, y, rfl⟩
      | cons z t3 => simp only [List.length_cons] at h; omega

/-- Re-parsing a rendered timestamp recovers the timestamp: on canonical
14-digit strings, `parse` inverts `strftime('%Y%m%d%H%M%S')`. -/
theorem parse14_renderTS (ts : DateTime) (hy : ts.date.year < 10000)
    (hmo : ts.date.month < 100) (hd : ts.date.day < 100)
    (hh : ts.time.hour < 100) (hmi : ts.time.minute < 100)
    (hs : ts.time.second < 100) :
    parse14 (renderTS ts) = ts := by
  obtain ⟨⟨y, mo, d⟩, ⟨h, mi, s⟩⟩ := ts
  simp only at hy hmo hd hh hmi hs
  have hy1 : y / 100 < 100 := by omega
  have hy2 : y % 100 < 100 := by omega
  obtain ⟨a1, a2, hA⟩ := eq_pair_of_length_two (pad2_toList_length _ hy1)
  obtain ⟨b1, b2, hB⟩ := eq_pair_of_length_two (pad2_toList_length _ hy2)
  obtain ⟨c1, c2, hC⟩ := eq_pair_of_length_two (pad2_toList_length _ hmo)
  obtain ⟨d1, d2, hD⟩ := eq_pair_of_length_two (pad2_toList_length _ hd)
  obtain ⟨e1, e2, hE⟩ := eq_pair_of_length_two (pad2_toList_length _ hh)
  obtain ⟨f1, f2, hF⟩ := eq_pair_of_length_two (pad2_toList_length _ hmi)
  obtain ⟨g1, g2, hG⟩ := eq_pair_of_length_two (pad2_toList_length _ hs)
  have hA' : (pad2 (y / 100)).data = [a1, a2] := hA
  have hB' : (pad2 (y % 100)).data = [b1, b2] := hB
  have hC' : (pad2 mo).data = [c1, c2] := hC
  have hD' : (pad2 d).data = [d1, d2] := hD
  have hE' : (pad2 h).data = [e1, e2] := hE
  have hF' : (pad2 mi).data = [f1, f2] := hF
  have hG' : (pad2 s).data = [g1, g2] := hG
  have hlist : (renderTS ⟨⟨y, mo, d⟩, ⟨h, mi, s⟩⟩).toList =
      [a1, a2, b1, b2, c1, c2, d1, d2, e1, e2, f1, f2, g1, g2] := by
    show (renderTS ⟨⟨y, mo, d⟩, ⟨h, mi, s⟩⟩).data = _
    simp [renderTS, renderDate, hA', hB', hC', hD', hE', hF', hG']
  have hsplit : parse14 (renderTS ⟨⟨y, mo, d⟩, ⟨h, mi, s⟩⟩) =
      ⟨⟨strValL [a1, a2, b1, b2], strValL [c1, c2], strValL [d1, d2]⟩,
       ⟨strValL [e1, e2], strValL [f1, f2], strValL [g1, g2]⟩⟩ := by
    unfold parse14
    rw [hlist]
    rfl
  have hval4 : strValL [a1, a2, b1, b2] = y := by
    have happ : strValL ([a1, a2] ++ [b1, b2]) =
        strValL [a1, a2] * 10 ^ 2 + strValL [b1, b2] := by
      simpa using strValL_append [a1, a2] [b1, b2]
    have ea : strValL [a1, a2] = y / 100 := by rw [← hA]; exact pad2_strValL _ hy1
    have eb : strValL [b1, b2] = y % 100 := by rw [← hB]; exact pad2_strValL _ hy2
    calc strValL [a1, a2, b1, b2] = strValL ([a1, a2] ++ [b1, b2]) := rfl
      _ = y / 100 * 10 ^ 2 + y % 100 := by rw [happ, ea, eb]
      _ = y := by omega
  have hvC : strValL [c1, c2] = mo := by rw [← hC]; exact pad2_strValL _ hmo
  have hvD : strValL [d1, d2] = d := by rw [← hD]; exact pad2_strValL _ hd
  have hvE : strValL [e1, e2] = h := by rw [← hE]; exact pad2_strValL _ hh
  have hvF : strValL [f1, f2] = mi := by rw [← hF]; exact pad2_strValL _ hmi
  have hvG : strValL [g1, g2] = s := by rw [← hG]; exact pad2_strValL _ hs
  rw [hsplit, hval4, hvC, hvD, hvE, hvF, hvG]

/-- A two-digit pad has string length two. -/
theorem pad2_length : ∀ n < 100, (pad2 n).length = 2 := by decide

/-- A rendered timestamp has exactly 14 characters. -/
theorem renderTS_toList_length (ts : DateTime) (hy : ts.date.year < 10000)
    (hmo : ts.date.month < 100) (hd : ts.date.day < 100)
    (hh : ts.time.hour < 100) (hmi : ts.time.minute < 100)
    (hs : ts.time.second < 100) :
    (renderTS ts).toList.length = 14 := by
  obtain ⟨⟨y, mo, d⟩, ⟨h, mi, s⟩⟩ := ts
  simp only at hy hmo hd hh hmi hs
  have hy1 : y / 100 < 100 := by omega
  have hy2 : y % 100 < 100 := by omega
  simp [renderTS, renderDate, toList_append, List.length_append,
    pad2_length _ hy1, pad2_length _ hy2, pad2_length _ hmo,
    pad2_length _ hd, pad2_length _ hh, pad2_length _ hmi,
    pad2_length _ hs]

/-- The length of a Python slice `x[:k]`. -/
theorem strTake_length (s : String) (k : Nat) :
    (strTake s k).length = min k s.toList.length := by
  have : (strTake s k).length = (s.toList.take k).length := rfl
  rw [this, List.length_take]

/-- Claim C4: under version 1, a resolved timestamp dated on or after
2013-04-01 truncates to exactly 8 characters, one dated before 2006-01-01
to exactly 4 characters, and one in between to exactly 6 characters; the
truncated list is de-duplicated (`list(set(...))`), so the final timestamp
set has no duplicate entries. -/
theorem c4_v1_era_truncation (ts : DateTime) (hy : ts.date.year < 10000)
    (hmo : ts.date.month < 100) (hd : ts.date.day < 100)
    (hh : ts.time.hour < 100) (hmi : ts.time.minute < 100)
    (hs : ts.time.second < 100) :
    (dtKey ⟨⟨2013, 4, 1⟩, ⟨0, 0, 0⟩⟩ ≤ dtKey ts →
      (truncStr (renderTS ts)).length = 8) ∧
    (dtKey ts < dtKey ⟨⟨2006, 1, 1⟩, ⟨0, 0, 0⟩⟩ →
      (truncStr (renderTS ts)).length = 4) ∧
    (dtKey ⟨⟨2006, 1, 1⟩, ⟨0, 0, 0⟩⟩ ≤ dtKey ts →
      dtKey ts < dtKey ⟨⟨2013, 4, 1⟩, ⟨0, 0, 0⟩⟩ →
      (truncStr (renderTS ts)).length = 6) ∧
    (∀ ss : List String, ((ss.map truncStr).dedup).Nodup) := by
  have hrt := parse14_renderTS ts hy hmo hd hh hmi hs
  have hlen := renderTS_toList_length ts hy hmo hd hh hmi hs
  have htr : truncStr (renderTS ts) =
      if dtKey ⟨⟨2013, 4, 1⟩, ⟨0, 0, 0⟩⟩ ≤ dtKey ts then strTake (renderTS ts) 8
      else if dtKey ts < dtKey ⟨⟨2006, 1, 1⟩, ⟨0, 0, 0⟩⟩ then
        strTake (renderTS ts) 4
      else strTake (renderTS ts) 6 := by
    unfold truncStr
    rw [hrt]
  refine ⟨fun hge => ?_, fun hlt => ?_, fun hge hlt => ?_,
    fun ss => List.nodup_dedup _⟩
  · rw [htr, if_pos hge, strTake_length, hlen]
    decide
  · have hkeys : dtKey ⟨⟨2006, 1, 1⟩, ⟨0, 0, 0⟩⟩ <
        dtKey ⟨⟨2013, 4, 1⟩, ⟨0, 0, 0⟩⟩ := by decide
    rw [htr, if_neg (by omega), if_pos hlt, strTake_length, hlen]
    decide
  · rw [htr, if_neg (by omega), if_neg (by omega), strTake_length, hlen]
    decide

/-- Claim C4, witness at concrete timestamps of the daily (2016-10-19),
yearly (2005-12-31) and monthly (2010-06-15) eras. -/
theorem c4_witness :
    (truncStr (renderTS ⟨⟨2016, 10, 19⟩, ⟨23, 45, 0⟩⟩)).length = 8 ∧
    (truncStr (renderTS ⟨⟨2005, 12, 31⟩, ⟨23, 45, 0⟩⟩)).length = 4 ∧
    (truncStr (renderTS ⟨⟨2010, 6, 15⟩, ⟨23, 45, 0⟩⟩)).length = 6 :=
  ⟨(c4_v1_era_truncation ⟨⟨2016, 10, 19⟩, ⟨23, 45, 0⟩⟩ (by decide) (by decide)
      (by decide) (by decide) (by decide) (by decide)).1 (by decide),
   (c4_v1_era_truncation ⟨⟨2005, 12, 31⟩, ⟨23, 45, 0⟩⟩ (by decide) (by decide)
      (by decide) (by decide) (by decide) (by decide)).2.1 (by decide),
   (c4_v1_era_truncation ⟨⟨2010, 6, 15⟩, ⟨23, 45, 0⟩⟩ (by decide) (by decide)
      (by decide) (by decide) (by decide) (by decide)).2.2.1 (by decide) (by decide)⟩

end Gdelt
